import Mathlib

/-!
# Shader data contract: shallow embedding

Embedding of the two headers `src/Timeloop/Timeloop/Shaders/Shaders.h` and
`src/again2/Shaders/Shaders.h`. The headers define the vertex-stream structs
(`VertexIn`, `VertexOut`) and, in the `again2` copy, the crop uniform
(`CropUniform`) together with the remap formula `finalUV = origin + baseUV * size`.
Vector components are modelled with exact rational arithmetic (`ℚ`), standing in
for the 32-bit floats of `simd_float2` / `simd_float4`; struct layout is modelled
separately with the byte sizes and natural alignments of the simd vector types.
-/

/-- A two-component vector value (`simd_float2`): components `u`, `v`. -/
structure Float2 where
  u : ℚ
  v : ℚ
deriving DecidableEq, Repr

/-- A four-component vector value (`simd_float4`). -/
structure Float4 where
  x : ℚ
  y : ℚ
  z : ℚ
  w : ℚ
deriving DecidableEq, Repr

/-- Component-wise addition, the simd `+` on `simd_float2`. -/
def Float2.add (a b : Float2) : Float2 :=
  ⟨a.u + b.u, a.v + b.v⟩

/-- Component-wise multiplication, the simd `*` on `simd_float2`. -/
def Float2.mul (a b : Float2) : Float2 :=
  ⟨a.u * b.u, a.v * b.v⟩

/-- Crop uniform from `src/again2/Shaders/Shaders.h`: `origin` is the UV offset
`(u0, v0)` of the crop rectangle, `size` its UV extent `(du, dv)`. -/
structure CropUniform where
  origin : Float2
  size : Float2
deriving DecidableEq, Repr

/-- Modelled from the spec: the shader body that applies `CropUniform` is not under
`src/` — only the header declaring the uniform is.  The header documents the remap
as `finalUV = origin + baseUV * size`, i.e. the simd vector multiply-add with the
simd component-wise `*` and `+`. -/
def remap (baseUV origin size : Float2) : Float2 :=
  Float2.add origin (Float2.mul baseUV size)

/-- The remap as the spec words it: multiply each component of `baseUV` by the
matching component of `size`, then add the matching component of `origin`. -/
def remapSpec (baseUV origin size : Float2) : Float2 :=
  ⟨origin.u + baseUV.u * size.u, origin.v + baseUV.v * size.v⟩

/-- Modelled from the spec: linear interpolation of two UVs with weight `t`
(the fixed-function rasterizer's attribute interpolation along an edge;
no interpolation code is under `src/`). -/
def lerp (p q : Float2) (t : ℚ) : Float2 :=
  ⟨p.u + t * (q.u - p.u), p.v + t * (q.v - p.v)⟩

/-- The inverse map named by the implicit claim: `unremap(v) = (v - origin) / size`
component-wise. -/
def unremap (v origin size : Float2) : Float2 :=
  ⟨(v.u - origin.u) / size.u, (v.v - origin.v) / size.v⟩

/-- Vertex input from both headers: clip-space `position`, base UV `texCoord`. -/
structure VertexIn where
  position : Float2
  texCoord : Float2
deriving DecidableEq, Repr

/-- Vertex output from both headers: homogeneous `position` (tagged `[[position]]`,
consumed by the rasterizer) and the interpolated `texCoord`. -/
structure VertexOut where
  position : Float4
  texCoord : Float2
deriving DecidableEq, Repr

/-- Modelled from the spec: the vertex-shader body is not under `src/`.  The spec
says the position is forwarded as the homogeneous clip coordinate under the
`XY/Z=0/W=1` convention and `texCoord` is forwarded unchanged (the remap is not
applied at this stage). -/
def vertexStage (vin : VertexIn) : VertexOut :=
  ⟨⟨vin.position.u, vin.position.v, 0, 1⟩, vin.texCoord⟩

/-- Modelled from the spec: the data a `VertexOut` forwards past the rasterizer to
later stages is `texCoord` alone; `position` is consumed to place the primitive. -/
def rasterForwarded (vout : VertexOut) : Float2 :=
  vout.texCoord

/-! ## Struct layout

Byte sizes and natural alignments of the simd vector types used by the headers
(`simd_float2`: 8 bytes, 8-aligned; `simd_float4`: 16 bytes, 16-aligned), and the
C layout rule: each field is placed at its alignment, the struct is padded to a
multiple of its largest field alignment. -/

/-- The simd vector types appearing in the headers. -/
inductive SimdType where
  | float2
  | float4
deriving DecidableEq, Repr

/-- Byte size of a simd vector type (four resp. two 32-bit floats). -/
def SimdType.byteSize : SimdType → Nat
  | .float2 => 8
  | .float4 => 16

/-- Natural alignment of a simd vector type. -/
def SimdType.byteAlign : SimdType → Nat
  | .float2 => 8
  | .float4 => 16

/-- Round `off` up to the next multiple of `a`. -/
def alignUp (off a : Nat) : Nat :=
  ((off + a - 1) / a) * a

/-- One step of C struct layout: place a field of type `t` at the current end
offset rounded up to the field's alignment, and track the largest alignment. -/
def layoutStep (acc : Nat × Nat) (t : SimdType) : Nat × Nat :=
  (alignUp acc.1 t.byteAlign + t.byteSize, max acc.2 t.byteAlign)

/-- `sizeof` of a C struct with the given field types under natural packing:
fields laid out in order at their natural alignments, then tail padding to a
multiple of the struct's alignment. -/
def sizeofStruct (fields : List SimdType) : Nat :=
  let r := fields.foldl layoutStep (0, 1)
  alignUp r.1 r.2

/-- A named field of a header struct. -/
structure FieldDecl where
  fname : String
  ftype : SimdType
deriving DecidableEq, Repr

/-- A named struct of a header. -/
structure StructDecl where
  sname : String
  sfields : List FieldDecl
deriving DecidableEq, Repr

/-- The structs of `src/Timeloop/Timeloop/Shaders/Shaders.h`, in order. -/
def timeloopHeader : List StructDecl :=
  [⟨"VertexIn", [⟨"position", .float2⟩, ⟨"texCoord", .float2⟩]⟩,
   ⟨"VertexOut", [⟨"position", .float4⟩, ⟨"texCoord", .float2⟩]⟩]

/-- The structs of `src/again2/Shaders/Shaders.h`, in order. -/
def again2Header : List StructDecl :=
  [⟨"VertexIn", [⟨"position", .float2⟩, ⟨"texCoord", .float2⟩]⟩,
   ⟨"VertexOut", [⟨"position", .float4⟩, ⟨"texCoord", .float2⟩]⟩,
   ⟨"CropUniform", [⟨"origin", .float2⟩, ⟨"size", .float2⟩]⟩]

/-- Field types of a struct declaration, for layout. -/
def StructDecl.fieldTypes (s : StructDecl) : List SimdType :=
  s.sfields.map FieldDecl.ftype

/-! ## Claims -/

/-- C1: for every `baseUV`, `origin` and `size`, `remap` equals
`origin + baseUV * size` computed component-wise — multiply each component of
`baseUV` by the matching component of `size`, then add the matching component of
`origin` — exactly, with no further operation. -/
theorem remap_is_componentwise_multiply_add (baseUV origin size : Float2) :
    remap baseUV origin size = remapSpec baseUV origin size := by
  simp [remap, remapSpec, Float2.add, Float2.mul]

/-- C2: for every `baseUV` in the unit square, `remap` with `origin = (0,0)` and
`size = (1,1)` is the identity map (no crop). -/
theorem remap_identity (b : Float2)
    (h0u : 0 ≤ b.u) (h1u : b.u ≤ 1) (h0v : 0 ≤ b.v) (h1v : b.v ≤ 1) :
    remap b ⟨0, 0⟩ ⟨1, 1⟩ = b := by
  cases b
  simp [remap, Float2.add, Float2.mul]

/-- C2 witness: the identity law at the concrete base UV `(1/2, 1/3)`. -/
theorem remap_identity_witness :
    remap ⟨1/2, 1/3⟩ ⟨0, 0⟩ ⟨1, 1⟩ = (⟨1/2, 1/3⟩ : Float2) :=
  remap_identity ⟨1/2, 1/3⟩ (by norm_num) (by norm_num) (by norm_num) (by norm_num)

/-- C3: `remap` commutes with linear interpolation: for every crop, every pair of
base UVs and every weight `t ∈ [0,1]`, remapping the interpolated UV equals
interpolating the remapped UVs, so the remap may be placed per-vertex or
per-pixel interchangeably. -/
theorem remap_lerp_comm (p q o s : Float2) (t : ℚ) (h0 : 0 ≤ t) (h1 : t ≤ 1) :
    remap (lerp p q t) o s = lerp (remap p o s) (remap q o s) t := by
  simp only [remap, lerp, Float2.add, Float2.mul, Float2.mk.injEq]
  constructor <;> ring

/-- C3 witness: interpolation-commutativity at concrete corners and `t = 1/2`. -/
theorem remap_lerp_comm_witness :
    remap (lerp ⟨0, 0⟩ ⟨1, 1⟩ (1/2)) ⟨1/4, 0⟩ ⟨1/2, 1⟩ =
      lerp (remap ⟨0, 0⟩ ⟨1/4, 0⟩ ⟨1/2, 1⟩) (remap ⟨1, 1⟩ ⟨1/4, 0⟩ ⟨1/2, 1⟩) (1/2) :=
  remap_lerp_comm ⟨0, 0⟩ ⟨1, 1⟩ ⟨1/4, 0⟩ ⟨1/2, 1⟩ (1/2) (by norm_num) (by norm_num)

/-- C4: `remap` sends the unit-square corners to the crop rectangle's corners:
`(0,0)` to `origin` and `(1,1)` to `origin + size`; in particular with
`origin = (0.25, 0)` and `size = (0.5, 1)`, `(0,0)` yields `(0.25, 0)` and
`(1,1)` yields `(0.75, 1)`. -/
theorem remap_corners :
    (∀ o s : Float2, remap ⟨0, 0⟩ o s = o ∧ remap ⟨1, 1⟩ o s = Float2.add o s) ∧
      remap ⟨0, 0⟩ ⟨1/4, 0⟩ ⟨1/2, 1⟩ = (⟨1/4, 0⟩ : Float2) ∧
      remap ⟨1, 1⟩ ⟨1/4, 0⟩ ⟨1/2, 1⟩ = (⟨3/4, 1⟩ : Float2) := by
  refine ⟨fun o s => ?_, ?_, ?_⟩
  · cases o; cases s
    simp [remap, Float2.add, Float2.mul]
  · norm_num [remap, Float2.add, Float2.mul]
  · norm_num [remap, Float2.add, Float2.mul, Float2.mk.injEq]

/-- C5: a zero component of `size` collapses the matching component of the
remapped UV onto `origin`, regardless of the base UV: a degenerate crop samples a
line or point at `origin`. -/
theorem remap_degenerate_collapse (b o s : Float2) :
    (s.u = 0 → (remap b o s).u = o.u) ∧ (s.v = 0 → (remap b o s).v = o.v) := by
  constructor <;> intro h <;> simp [remap, Float2.add, Float2.mul, h]

/-- C5 witness: the spec's Scenario 3 — `size = (0, 1/2)`, `baseUV = (1/2, 1/2)`
gives `finalUV.u = origin.u`. -/
theorem remap_degenerate_collapse_witness :
    (remap ⟨1/2, 1/2⟩ ⟨1/4, 0⟩ ⟨0, 1/2⟩).u = (Float2.mk (1/4) 0).u :=
  (remap_degenerate_collapse ⟨1/2, 1/2⟩ ⟨1/4, 0⟩ ⟨0, 1/2⟩).1 rfl

/-- C6 counterexample: the order-preservation claim fails for an arbitrary `size`:
with `origin = (0,0)`, `size = (-1, 0)` and `p = (0,0)`, `q = (1,0)` one has
`p.u ≤ q.u` but not `remap(p).u ≤ remap(q).u`. -/
theorem remap_not_order_preserving_for_negative_size :
    (Float2.mk 0 0).u ≤ (Float2.mk 1 0).u ∧
      ¬ (remap ⟨0, 0⟩ ⟨0, 0⟩ ⟨-1, 0⟩).u ≤ (remap ⟨1, 0⟩ ⟨0, 0⟩ ⟨-1, 0⟩).u := by
  constructor
  · norm_num
  · norm_num [remap, Float2.add, Float2.mul]

/-- C6 amended: `remap` is order-preserving in each component independently
whenever the matching component of `size` is nonnegative — the caller-side
invariant `size > 0` (or merely `size ≥ 0`) is needed; a negative size component
reverses the order. -/
theorem remap_order_preserving (o s p q : Float2) :
    (0 ≤ s.u → p.u ≤ q.u → (remap p o s).u ≤ (remap q o s).u) ∧
      (0 ≤ s.v → p.v ≤ q.v → (remap p o s).v ≤ (remap q o s).v) := by
  constructor <;> intro hs hpq <;> simp only [remap, Float2.add, Float2.mul] <;>
    have := mul_le_mul_of_nonneg_right hpq hs <;> linarith

/-- C6 witness: monotonicity in `u` at `origin = (1/4, 0)`, `size = (1/2, 1)`,
between the base UVs `(0,0)` and `(1,0)`. -/
theorem remap_order_preserving_witness :
    (remap ⟨0, 0⟩ ⟨1/4, 0⟩ ⟨1/2, 1⟩).u ≤ (remap ⟨1, 0⟩ ⟨1/4, 0⟩ ⟨1/2, 1⟩).u :=
  (remap_order_preserving ⟨1/4, 0⟩ ⟨1/2, 1⟩ ⟨0, 0⟩ ⟨1, 0⟩).1 (by norm_num) (by norm_num)

/-- C7 counterexample: under natural packing the `VertexOut` struct of the
`again2` header does not occupy 24 bytes: its `simd_float4` field forces
16-byte alignment, so the 24 bytes of field data are tail-padded to 32. -/
theorem vertexOut_size_not_24 :
    sizeofStruct (StructDecl.fieldTypes (again2Header.get ⟨1, by decide⟩)) = 32 ∧
      ¬ sizeofStruct (StructDecl.fieldTypes (again2Header.get ⟨1, by decide⟩)) = 24 := by
  decide

/-- C7 amended: with 32-bit float fields and natural packing, `VertexIn` is
16 bytes (fields in order `position` then `texCoord`) and `CropUniform` is
16 bytes (fields in order `origin` then `size`), independent of platform, in both
headers; `VertexOut` (a 4-component float `position` followed by a 2-component
float `texCoord`) occupies 32 bytes, not 24 — 24 bytes of field data plus 8 bytes
of tail padding to the 16-byte alignment of `simd_float4`. -/
theorem struct_sizes :
    sizeofStruct (StructDecl.fieldTypes (again2Header.get ⟨0, by decide⟩)) = 16 ∧
      sizeofStruct (StructDecl.fieldTypes (again2Header.get ⟨2, by decide⟩)) = 16 ∧
      sizeofStruct (StructDecl.fieldTypes (again2Header.get ⟨1, by decide⟩)) = 32 ∧
      sizeofStruct (StructDecl.fieldTypes (timeloopHeader.get ⟨0, by decide⟩)) = 16 ∧
      sizeofStruct (StructDecl.fieldTypes (timeloopHeader.get ⟨1, by decide⟩)) = 32 ∧
      (again2Header.get ⟨0, by decide⟩).sfields.map FieldDecl.fname =
        ["position", "texCoord"] ∧
      (again2Header.get ⟨2, by decide⟩).sfields.map FieldDecl.fname =
        ["origin", "size"] := by
  decide

/-- C8: the two header copies define the same vertex contract: the `VertexIn` and
`VertexOut` declarations of the Timeloop header and of the `again2` header have
identical names, fields, field order and field types, and the `again2` header
differs only by additionally declaring `CropUniform`. -/
theorem headers_define_same_vertex_contract :
    again2Header.take 2 = timeloopHeader ∧
      again2Header = timeloopHeader ++
        [⟨"CropUniform", [⟨"origin", .float2⟩, ⟨"size", .float2⟩]⟩] := by
  decide

/-- C9: the `texCoord` attribute passes through the vertex stage unchanged (the
remap is not applied there), and the data forwarded past the rasterizer depends
only on `texCoord` — the `position` field is consumed by the rasterizer, never
forwarded. -/
theorem texCoord_passthrough :
    (∀ vin : VertexIn, (vertexStage vin).texCoord = vin.texCoord) ∧
      (∀ a b : VertexOut, a.texCoord = b.texCoord →
        rasterForwarded a = rasterForwarded b) := by
  exact ⟨fun _ => rfl, fun a b h => h⟩

/-- C9 witness: two vertex outputs with distinct positions but the same
`texCoord` forward the same data, and a concrete vertex input keeps its
`texCoord` through the vertex stage. -/
theorem texCoord_passthrough_witness :
    (vertexStage ⟨⟨-1, -1⟩, ⟨0, 1⟩⟩).texCoord = (⟨0, 1⟩ : Float2) ∧
      rasterForwarded ⟨⟨0, 0, 0, 1⟩, ⟨1/2, 1/2⟩⟩ =
        rasterForwarded ⟨⟨1, 1, 0, 1⟩, ⟨1/2, 1/2⟩⟩ :=
  ⟨texCoord_passthrough.1 ⟨⟨-1, -1⟩, ⟨0, 1⟩⟩,
    texCoord_passthrough.2 ⟨⟨0, 0, 0, 1⟩, ⟨1/2, 1/2⟩⟩ ⟨⟨1, 1, 0, 1⟩, ⟨1/2, 1/2⟩⟩ rfl⟩

/-- C10: on a non-degenerate crop (`size.u ≠ 0`, `size.v ≠ 0`) the component-wise
map `unremap(v) = (v - origin) / size` undoes `remap` for every base UV, so
`remap` is injective there: distinct base UVs sample distinct cropped
coordinates. -/
theorem unremap_remap_roundtrip (o s : Float2) (hu : s.u ≠ 0) (hv : s.v ≠ 0) :
    (∀ b : Float2, unremap (remap b o s) o s = b) ∧
      Function.Injective (fun b => remap b o s) := by
  have round : ∀ b : Float2, unremap (remap b o s) o s = b := by
    intro b
    cases b
    simp only [unremap, remap, Float2.add, Float2.mul, Float2.mk.injEq]
    constructor <;> field_simp
  refine ⟨round, fun b1 b2 h => ?_⟩
  have h1 := round b1
  have h2 := round b2
  simp only at h
  rw [← h1, ← h2, h]

/-- C10 witness: the round trip at the concrete crop `origin = (1/4, 1/8)`,
`size = (2, 3)` and base UV `(5, 7)`. -/
theorem unremap_remap_roundtrip_witness :
    unremap (remap ⟨5, 7⟩ ⟨1/4, 1/8⟩ ⟨2, 3⟩) ⟨1/4, 1/8⟩ ⟨2, 3⟩ = (⟨5, 7⟩ : Float2) :=
  (unremap_remap_roundtrip ⟨1/4, 1/8⟩ ⟨2, 3⟩ (by norm_num) (by norm_num)).1 ⟨5, 7⟩
